import Mathlib

/-!
Verification of the profile-photo generation pipeline.

This file gives a shallow embedding of the submission coordinator
(`backend/lambda/api/api_manager.py`, `handle_generate_image`), the quota
and job services (`backend/layers/dynamodb_helper.py`) and the processing
worker (`backend/lambda/process/process.py`, `lambda_handler`), and proves
properties of the embedded definitions.

Modelling conventions:
- DynamoDB tables are association lists; `update_item` on the jobs table
  is modelled by `update_job_status` below, which mirrors the update
  expression built in `ImageJobService.update_job_status` field by field.
- Collaborator calls (S3, SQS, Gemini, WebSocket) are modelled by outcome
  parameters in an environment record: each call's result (`Except` for
  fallible calls) is an input, and the code's handling of that result is
  embedded faithfully.
- Python truthiness of optional strings (`if not x`) is modelled by
  `truthy`, which is false exactly on `none` and the empty string.
- Times are naturals (milliseconds); timestamps are naturals.
-/

/-- A value stored in a job's `metadata` map: the code stores strings and
numbers (floats converted to `Decimal` before the write). -/
inductive MetaVal where
  | str (s : String)
  | num (n : Nat)
  deriving Repr, DecidableEq

/-- One record of the `image_jobs_table`.  Fields mirror the item written by
`ImageJobService.create_job` plus the attributes that
`ImageJobService.update_job_status` may set later; attributes absent from
the stored item are `none`. -/
structure Job where
  jobId : String
  userId : String
  status : String
  style : String
  inputImageUrl : String
  prompt : String
  createdAt : Nat
  updatedAt : Nat
  outputImageUrl : Option String := none
  error : Option String := none
  processingTime : Option Nat := none
  metadata : Option (List (String × MetaVal)) := none
  deriving Repr, DecidableEq

/-- The keyword arguments accepted by `ImageJobService.update_job_status`:
a `none` field means the corresponding kwarg was not passed, so the update
expression does not touch that attribute. -/
structure UpdateArgs where
  status : String
  output_url : Option String := none
  error : Option String := none
  processing_time : Option Nat := none
  metadata : Option (List (String × MetaVal)) := none
  deriving Repr, DecidableEq

/-- Effect of `ImageJobService.update_job_status` on a single stored job:
`SET #status = :status, updatedAt = :updatedAt` always, plus one `SET`
clause per kwarg that was passed.  Note that a passed `metadata` kwarg
replaces the whole `metadata` attribute. -/
def applyUpdate (j : Job) (a : UpdateArgs) (now : Nat) : Job :=
  { j with
    status := a.status
    updatedAt := now
    outputImageUrl := match a.output_url with
      | some u => some u
      | none => j.outputImageUrl
    error := match a.error with
      | some e => some e
      | none => j.error
    processingTime := match a.processing_time with
      | some p => some p
      | none => j.processingTime
    metadata := match a.metadata with
      | some m => some m
      | none => j.metadata }

/-- Embedding of `ImageJobService.update_job_status` at the table level: update the
record whose key is `jid` (pointwise map over the stored records). -/
def update_job_status : List Job → String → UpdateArgs → Nat → List Job
  | [], _, _, _ => []
  | j :: rest, jid, a, now =>
    (if j.jobId = jid then applyUpdate j a now else j) :: update_job_status rest jid a now

/-- Embedding of `ImageJobService.get_job`: fetch a job record by key. -/
def get_job : List Job → String → Option Job
  | [], _ => none
  | j :: rest, jid => if j.jobId = jid then some j else get_job rest jid

/-- Embedding of `ImageJobService.create_job`: the item put into the jobs table, with
status `pending` and no output, error or metadata attributes. -/
def create_job (job_id user_id style input_url prompt : String) (now : Nat) : Job :=
  { jobId := job_id
    userId := user_id
    status := "pending"
    style := style
    inputImageUrl := input_url
    prompt := prompt
    createdAt := now
    updatedAt := now }

/-- Look a key up in an association list (a DynamoDB `get_item`). -/
def lookupUsage : List (String × Nat) → String → Option Nat
  | [], _ => none
  | p :: rest, k => if p.1 = k then some p.2 else lookupUsage rest k

/-- Write a key in an association list (a DynamoDB `update_item` with
`if_not_exists`: creates the record when absent). -/
def setUsage : List (String × Nat) → String → Nat → List (String × Nat)
  | [], k, v => [(k, v)]
  | p :: rest, k, v => if p.1 = k then (k, v) :: rest else p :: setUsage rest k v

/-- The `usage_log_table` key `f"{user_id}#{today}"`. -/
def usageKey (uid day : String) : String := uid ++ "#" ++ day

/-- Embedding of `UsageService.get_today_usage`: the `try/except` around the ledger read
returns the stored count when the read succeeds and the record exists, and
0 both when the record is absent and when the read raises. -/
def get_today_usage (readResult : Except String (Option Nat)) : Nat :=
  match readResult with
  | .error _ => 0
  | .ok none => 0
  | .ok (some c) => c

/-- Embedding of `UsageService.can_generate_image`: `remaining = DAILY_LIMIT -
current_usage`, generation allowed iff `remaining > 0`. -/
def can_generate_image (dailyLimit : Nat) (readResult : Except String (Option Nat)) :
    Bool × Int :=
  let current : Int := (get_today_usage readResult : Int)
  let remaining : Int := (dailyLimit : Int) - current
  (decide (remaining > 0), remaining)

/-- Embedding of `UsageService.increment_usage`: `count = if_not_exists(count, 0) + 1`,
returning the new count. -/
def increment_usage (usage : List (String × Nat)) (k : String) :
    Nat × List (String × Nat) :=
  let newCount := (lookupUsage usage k).getD 0 + 1
  (newCount, setUsage usage k newCount)

/-- Embedding of `validate_generation_request` from `api_manager.py`: returns the error
string, or `none` when the request is valid.  `file_key` is the value of
`body.get('fileKey')`; Python truthiness makes both a missing key and an
empty string fail the first check. -/
def validate_generation_request (file_key : Option String) (prompt : String) :
    Option String :=
  if (file_key.getD ("")) = "" then some ("fileKey is required")
  else if prompt = "" then some ("prompt is required")
  else if prompt.length > 2000 then some ("prompt is too long (max 2000 characters)")
  else if !("uploads/".data.isPrefixOf (file_key.getD ("")).data) then
    some ("Invalid file key format")
  else none

/-- Observable calls the submission coordinator makes, in program order. -/
inductive Effect where
  | s3Head
  | userRead
  | userCreate
  | quotaRead
  | jobCreate (jobId : String)
  | publish
  | quotaIncrement
  | jobUpdate (jobId : String) (status : String)
  deriving Repr, DecidableEq

/-- Environment of one `handle_generate_image` call: outcomes of the
collaborator calls and the ambient configuration. -/
structure SubmitEnv where
  s3FileExists : Bool
  usageReadFails : Bool
  publishResult : Except String String
  new_job_id : String
  today : String
  now : Nat
  dailyLimit : Nat
  uploadBucket : String
  deriving Repr

/-- The request fields `handle_generate_image` reads from the parsed body
and the authorizer. -/
structure SubmitReq where
  user_id : String
  file_key : Option String
  prompt : String
  style : String
  deriving Repr, DecidableEq

/-- The durable state the coordinator touches: users table, usage ledger
(key `userId#day` to count) and jobs table. -/
structure SubmitState where
  users : List String
  usage : List (String × Nat)
  jobs : List Job
  deriving Repr, DecidableEq

/-- An HTTP response as built by `cors_response`: status code plus the body
fields the handler may set. -/
structure Response where
  statusCode : Nat
  error : Option String := none
  jobId : Option String := none
  status : Option String := none
  remainingQuota : Option Int := none
  message : Option String := none
  deriving Repr, DecidableEq

/-- The ledger read performed by `UsageService.get_today_usage` inside
`can_generate_image`: raises when the ledger is unavailable, otherwise
returns the stored record (if any). -/
def usageRead (env : SubmitEnv) (usage : List (String × Nat)) (uid : String) :
    Except String (Option Nat) :=
  if env.usageReadFails then .error ("read error")
  else .ok (lookupUsage usage (usageKey uid env.today))

/-- Embedding of `handle_generate_image` from `api_manager.py`, after authentication and
body parsing: validation, S3 existence check, user lookup/creation, quota
check, job creation, queue publish, and on publish success the quota
increment and the `queued` transition; on publish failure the compensating
`failed` transition.  Returns the response, the new state and the trace of
calls made. -/
def handle_generate_image (env : SubmitEnv) (req : SubmitReq) (st : SubmitState) :
    Response × SubmitState × List Effect :=
  match validate_generation_request req.file_key req.prompt with
  | some err => ({ statusCode := 400, error := some err }, st, [])
  | none =>
    if !env.s3FileExists then
      ({ statusCode := 404, error := some ("Uploaded file not found in S3") }, st,
        [Effect.s3Head])
    else
      let (st1, eff1) :=
        if st.users.contains req.user_id then
          (st, [Effect.s3Head, Effect.userRead])
        else
          ({ st with users := req.user_id :: st.users },
            [Effect.s3Head, Effect.userRead, Effect.userCreate])
      let key := usageKey req.user_id env.today
      let cg := can_generate_image env.dailyLimit (usageRead env st.usage req.user_id)
      let eff2 := eff1 ++ [Effect.quotaRead]
      if !cg.1 then
        ({ statusCode := 429, error := some ("Daily quota exceeded"),
           remainingQuota := some 0,
           message := some ("You have reached your daily limit. Please try again tomorrow.") },
          st1, eff2)
      else
        let s3_uri := "s3://" ++ env.uploadBucket ++ "/" ++ (req.file_key.getD (""))
        let job := create_job env.new_job_id req.user_id req.style s3_uri req.prompt env.now
        let st2 : SubmitState := { st1 with jobs := job :: st1.jobs }
        let eff3 := eff2 ++ [Effect.jobCreate env.new_job_id]
        match env.publishResult with
        | .ok msgId =>
          let inc := increment_usage st2.usage key
          let st3 : SubmitState := { st2 with usage := inc.2 }
          let queuedArgs : UpdateArgs :=
            { status := "queued",
              metadata := some [("sqsMessageId", MetaVal.str msgId)] }
          let st4 : SubmitState :=
            { st3 with jobs := update_job_status st3.jobs env.new_job_id queuedArgs env.now }
          ({ statusCode := 200, jobId := some env.new_job_id, status := some ("queued"),
             remainingQuota := some ((env.dailyLimit : Int) - (inc.1 : Int)),
             message := some ("Image generation request has been queued successfully") },
            st4,
            eff3 ++ [Effect.publish, Effect.quotaIncrement,
              Effect.jobUpdate env.new_job_id ("queued")])
        | .error e =>
          let failedArgs : UpdateArgs :=
            { status := "failed",
              error := some ("Failed to queue job: " ++ e) }
          let st3 : SubmitState :=
            { st2 with jobs := update_job_status st2.jobs env.new_job_id failedArgs env.now }
          ({ statusCode := 500, error := some ("Failed to queue image generation request"),
             jobId := some env.new_job_id }, st3,
            eff3 ++ [Effect.publish, Effect.jobUpdate env.new_job_id ("failed")])

/-- Occurrence of one character list inside another. -/
def listContains : List Char → List Char → Bool
  | s, pat =>
    match s with
    | [] => pat.isEmpty
    | _ :: rest => pat.isPrefixOf s || listContains rest pat

/-- Substring test (Python's `in` on strings), at the character level. -/
def containsSubstr (s pat : String) : Bool :=
  listContains s.data pat.data

/-- Python truthiness of an optional string: `None` and `""` are falsy. -/
def truthy : Option String → Bool
  | none => false
  | some s => s ≠ ""

/-- One part of a Gemini candidate's content: `inline_data` carries the
generated image bytes when present (the blob object is truthy even when its
byte string is empty), `text` a textual answer. -/
structure GenPart where
  inline_data : Option (List Nat) := none
  text : Option String := none
  deriving Repr, DecidableEq

/-- One output candidate of a Gemini response. -/
structure Candidate where
  finish_reason : Option String := none
  parts : List GenPart := []
  deriving Repr, DecidableEq

/-- A Gemini `generate_content` response. -/
structure GenResponse where
  candidates : List Candidate
  deriving Repr, DecidableEq

/-- The fields of a parsed SQS message body (`message_body.get(...)`). -/
structure SqsMessage where
  jobId : Option String := none
  userId : Option String := none
  s3_uri : Option String := none
  prompt : Option String := none
  style : Option String := none
  connectionId : Option String := none
  deriving Repr, DecidableEq

/-- A delivered SQS record: `malformed` stands for a body on which
`json.loads` raises, `parsed` for a successfully parsed body. -/
inductive SqsRecord where
  | malformed
  | parsed (m : SqsMessage)
  deriving Repr, DecidableEq

/-- Environment of one record's processing in the worker: outcomes of the
collaborator calls and ambient configuration.  `generation_time` is the
elapsed time of the Gemini call in milliseconds. -/
structure WorkerEnv where
  s3GetResult : Except String (List Nat)
  genResult : Except String GenResponse
  generation_time : Nat
  s3PutResult : Except String Unit
  notifyOk : Bool
  websocketEnabled : Bool
  model_name : String
  result_bucket : String
  now : Nat
  procTime : Nat
  deriving Repr

/-- The durable state the worker touches: the jobs table, the per-user
`totalImagesGenerated` counters, the keys written to the result bucket, the
notifications actually delivered (type, jobId), and the warning events
logged. -/
structure WorkerState where
  jobs : List Job
  totals : List (String × Nat) := []
  s3Writes : List String := []
  notifications : List (String × Option String) := []
  warnings : List String := []
  deriving Repr, DecidableEq

/-- Append one warning event (a `log.warning` call). -/
def addWarning (st : WorkerState) (w : String) : WorkerState :=
  { st with warnings := st.warnings ++ [w] }

/-- Append several warning events. -/
def addWarnings (st : WorkerState) (ws : List String) : WorkerState :=
  { st with warnings := st.warnings ++ ws }

/-- Predicate on `str(candidate.finish_reason)`: it is unexpected when its upper-cased form
does not contain `STOP` and it is not `"1"` (upper-casing modelled at the
character level). -/
def finishReasonUnexpected (fr : String) : Bool :=
  !(listContains (fr.data.map Char.toUpper) "STOP".data) && fr != "1"

/-- The part-scanning loop of the worker: walk the candidate's parts, log a
`gemini_text_response` warning for each truthy text part seen, and stop at
the first part with a truthy `inline_data`, returning its bytes. -/
def extract_image : List GenPart → List String × Option (List Nat)
  | [] => ([], none)
  | p :: rest =>
    match p.inline_data with
    | some d => ([], some d)
    | none =>
      let tail := extract_image rest
      match p.text with
      | some t => if t ≠ "" then ("gemini_text_response" :: tail.1, tail.2) else tail
      | none => tail

/-- The body of the worker's per-record `try` block, in program order:
required-field check, `processing` transition, input download, Gemini call,
slow-response warning, candidate checks, image extraction, output upload,
`completed` transition, per-user total increment and best-effort success
notification.  An error result carries the raised message together with the
state at the raise point. -/
def try_process (env : WorkerEnv) (m : SqsMessage) (st : WorkerState) :
    Except (String × WorkerState) WorkerState :=
  if !(truthy m.jobId && truthy m.userId && truthy m.s3_uri && truthy m.prompt) then
    .error ("Missing required data in SQS message", st)
  else
    let jid := m.jobId.getD ("")
    let uid := m.userId.getD ("")
    let processingArgs : UpdateArgs := { status := "processing" }
    let st1 : WorkerState :=
      { st with jobs := update_job_status st.jobs jid processingArgs env.now }
    match env.s3GetResult with
    | .error e => .error (e, st1)
    | .ok _ =>
      match env.genResult with
      | .error e => .error (e, st1)
      | .ok resp =>
        let st2 :=
          if env.generation_time > 30000 then addWarning st1 ("gemini_api_slow_response")
          else st1
        match resp.candidates with
        | [] => .error ("Image generation failed: no candidates in response", st2)
        | c :: _ =>
          let st3 :=
            match c.finish_reason with
            | some fr =>
              if finishReasonUnexpected fr then addWarning st2 ("unexpected_finish_reason")
              else st2
            | none => st2
          let ex := extract_image c.parts
          let st4 := addWarnings st3 ex.1
          match ex.2 with
          | none => .error ("Image generation failed: no image data in response", st4)
          | some bs =>
            if bs.isEmpty then
              .error ("Image generation failed: no image data in response", st4)
            else
              match env.s3PutResult with
              | .error e => .error (e, st4)
              | .ok _ =>
                let output_key := "generated/" ++ uid ++ "/" ++ jid ++ ".png"
                let output_uri := "s3://" ++ env.result_bucket ++ "/" ++ output_key
                let st5 : WorkerState :=
                  { st4 with s3Writes := st4.s3Writes ++ [output_key] }
                let completedArgs : UpdateArgs :=
                  { status := "completed",
                    output_url := some output_uri,
                    processing_time := some env.procTime,
                    metadata := some [("generationTime", MetaVal.num env.generation_time),
                                      ("modelName", MetaVal.str env.model_name),
                                      ("outputKey", MetaVal.str output_key),
                                      ("s3Uri", MetaVal.str output_uri)] }
                let st6 : WorkerState :=
                  { st5 with jobs := update_job_status st5.jobs jid completedArgs env.now }
                let st7 : WorkerState :=
                  { st6 with totals :=
                      setUsage st6.totals uid ((lookupUsage st6.totals uid).getD 0 + 1) }
                let st8 : WorkerState :=
                  if truthy m.connectionId && env.websocketEnabled then
                    if env.notifyOk then
                      { st7 with notifications :=
                          st7.notifications ++ [("image_completed", m.jobId)] }
                    else st7
                  else st7
                .ok st8

/-- One iteration of the worker's record loop, including the `except`
branch: on failure, mark the job `failed` when a `jobId` was identifiable
and send a best-effort failure notification when a connection exists.
Returns whether the record was counted as processed (`true`) or failed. -/
def process_record (env : WorkerEnv) (rec : SqsRecord) (st : WorkerState) :
    Bool × WorkerState :=
  match rec with
  | .malformed => (false, st)
  | .parsed m =>
    match try_process env m st with
    | .ok st1 => (true, st1)
    | .error es =>
      let failedArgs : UpdateArgs :=
        { status := "failed", error := some es.1, processing_time := some env.procTime }
      let st1 :=
        if truthy m.jobId then
          { es.2 with jobs := update_job_status es.2.jobs (m.jobId.getD ("")) failedArgs env.now }
        else es.2
      let st2 :=
        if truthy m.connectionId && env.websocketEnabled then
          if env.notifyOk then
            { st1 with notifications := st1.notifications ++ [("image_failed", m.jobId)] }
          else st1
        else st1
      (false, st2)

/-- Fold of `process_record` over a delivered batch, tallying processed and
failed records. -/
def process_batch (batch : List (WorkerEnv × SqsRecord)) (st : WorkerState) :
    (Nat × Nat) × WorkerState :=
  match batch with
  | [] => ((0, 0), st)
  | er :: rest =>
    let r1 := process_record er.1 er.2 st
    let r2 := process_batch rest r1.2
    ((if r1.1 then r2.1.1 + 1 else r2.1.1, if r1.1 then r2.1.2 else r2.1.2 + 1), r2.2)

/-- The worker's batch-level return value. -/
structure WorkerResult where
  statusCode : Nat
  processed : Nat
  failed : Nat
  deriving Repr, DecidableEq

/-- Embedding of `lambda_handler` from `process.py`: process every record of the batch
and return a 200 with the success/failure tally; the handler itself never
raises. -/
def lambda_handler (batch : List (WorkerEnv × SqsRecord)) (st : WorkerState) :
    WorkerResult × WorkerState :=
  let r := process_batch batch st
  ({ statusCode := 200, processed := r.1.1, failed := r.1.2 }, r.2)

/-- Look a key up in a job `metadata` attribute (absent attribute: `none`). -/
def metaLookup (m : Option (List (String × MetaVal))) (k : String) : Option MetaVal :=
  match m with
  | none => none
  | some l => (l.find? (fun p => p.1 = k)).map (fun p => p.2)

/-- A concrete valid submission request, used to instantiate theorems. -/
def reqOk : SubmitReq :=
  { user_id := "u", file_key := some ("uploads/u/x.png"), prompt := "p", style := "custom" }

/-- A concrete empty coordinator state. -/
def stEmpty : SubmitState := { users := [], usage := [], jobs := [] }

/-- A concrete coordinator environment whose queue publish raises. -/
def envC1 : SubmitEnv :=
  { s3FileExists := true, usageReadFails := false, publishResult := .error ("boom"),
    new_job_id := "job_1", today := "2026-01-01", now := 7, dailyLimit := 10,
    uploadBucket := "b" }

/-- A concrete coordinator environment whose queue publish succeeds. -/
def envC2 : SubmitEnv :=
  { s3FileExists := true, usageReadFails := false, publishResult := .ok ("m1"),
    new_job_id := "job_1", today := "2026-01-01", now := 7, dailyLimit := 10,
    uploadBucket := "b" }

/-- A concrete coordinator state whose ledger already holds the daily limit
for `reqOk`'s owner and day. -/
def stAtLimit : SubmitState :=
  { users := ["u"], usage := [("u#2026-01-01", 10)], jobs := [] }

/-- A concrete coordinator environment in which the ledger read raises. -/
def envC10 : SubmitEnv :=
  { s3FileExists := true, usageReadFails := true, publishResult := .ok ("m1"),
    new_job_id := "job_1", today := "2026-01-01", now := 7, dailyLimit := 10,
    uploadBucket := "b" }

/-- A concrete well-formed queue message. -/
def msgOk : SqsMessage :=
  { jobId := some ("job_1"), userId := some ("u"), s3_uri := some ("s3://b/uploads/u/x.png"),
    prompt := some ("p"), style := some ("custom"), connectionId := none }

/-- A concrete message missing its `prompt` field but carrying a jobId. -/
def msgNoPrompt : SqsMessage :=
  { jobId := some ("job_1"), userId := some ("u"), s3_uri := some ("s3://b/uploads/u/x.png"),
    prompt := none, style := some ("custom"), connectionId := none }

/-- A concrete Gemini response with one image-bearing candidate. -/
def goodResp : GenResponse :=
  { candidates := [{ finish_reason := some ("STOP"), parts := [{ inline_data := some [7] }] }] }

/-- A concrete worker environment in which every collaborator call
succeeds quickly. -/
def wenvOk : WorkerEnv :=
  { s3GetResult := .ok [1], genResult := .ok goodResp, generation_time := 100,
    s3PutResult := .ok (), notifyOk := true, websocketEnabled := false,
    model_name := "gemini-2.5-flash-image", result_bucket := "rb", now := 9, procTime := 3 }

/-- A concrete worker environment whose Gemini call raises. -/
def wenvGenFail : WorkerEnv :=
  { wenvOk with genResult := .error ("Gemini timeout") }

/-- A concrete worker environment whose Gemini call succeeds but takes
longer than 30 seconds. -/
def wenvSlow : WorkerEnv :=
  { wenvOk with generation_time := 31000 }

/-- A concrete Gemini response with no candidate. -/
def noCandResp : GenResponse := { candidates := [] }

/-- A concrete Gemini response whose only candidate is text-only. -/
def textOnlyResp : GenResponse :=
  { candidates := [{ finish_reason := some ("STOP"),
                     parts := [{ text := some ("I cannot generate that image") }] }] }

/-- A concrete worker environment whose Gemini response has no candidate. -/
def wenvNoCand : WorkerEnv :=
  { wenvOk with genResult := .ok noCandResp }

/-- A concrete worker environment whose Gemini response is text-only. -/
def wenvTextOnly : WorkerEnv :=
  { wenvOk with genResult := .ok textOnlyResp }

/-- A concrete job already completed, with its output written. -/
def completedJob : Job :=
  { jobId := "job_1", userId := "u", status := "completed", style := "custom",
    inputImageUrl := "s3://b/uploads/u/x.png", prompt := "p", createdAt := 0, updatedAt := 5,
    outputImageUrl := some ("s3://rb/generated/u/job_1.png"),
    metadata := some [("outputKey", MetaVal.str ("generated/u/job_1.png"))] }

/-- A concrete job in `queued` state carrying the queue message id recorded
at the pending to queued transition. -/
def queuedJob : Job :=
  { jobId := "job_1", userId := "u", status := "queued", style := "custom",
    inputImageUrl := "s3://b/uploads/u/x.png", prompt := "p", createdAt := 0, updatedAt := 1,
    metadata := some [("sqsMessageId", MetaVal.str ("m1"))] }

/-- Worker state holding the completed job and its already-written output. -/
def wstCompleted : WorkerState :=
  { jobs := [completedJob], s3Writes := ["generated/u/job_1.png"],
    notifications := [("image_completed", some ("job_1"))] }

/-- Worker state holding the queued job. -/
def wstQueued : WorkerState := { jobs := [queuedJob] }

theorem lookupUsage_setUsage (m : List (String × Nat)) (k : String) (v : Nat) :
    lookupUsage (setUsage m k v) k = some v := by
  induction m with
  | nil => simp [setUsage, lookupUsage]
  | cons p rest ih =>
    by_cases h : p.1 = k
    · simp [setUsage, h, lookupUsage]
    · simp [setUsage, h, lookupUsage, ih]

theorem applyUpdate_jobId (j : Job) (a : UpdateArgs) (now : Nat) :
    (applyUpdate j a now).jobId = j.jobId := rfl

theorem get_job_update_self (jobs : List Job) (jid : String) (a : UpdateArgs) (now : Nat)
    (j : Job) (h : get_job jobs jid = some j) :
    get_job (update_job_status jobs jid a now) jid = some (applyUpdate j a now) := by
  induction jobs with
  | nil => simp [get_job] at h
  | cons hd tl ih =>
    by_cases hh : hd.jobId = jid
    · have h' : hd = j := by simpa [get_job, hh] using h
      subst h'
      simp only [update_job_status, get_job, if_pos hh]
      rw [if_pos ((applyUpdate_jobId hd a now).trans hh)]
    · have h' : get_job tl jid = some j := by simpa [get_job, hh] using h
      simp only [update_job_status, get_job, if_neg hh]
      exact ih h'

theorem get_job_update_isSome (jobs : List Job) (jid jid' : String) (a : UpdateArgs)
    (now : Nat) :
    (get_job (update_job_status jobs jid a now) jid').isSome = (get_job jobs jid').isSome := by
  induction jobs with
  | nil => rfl
  | cons hd tl ih =>
    simp only [update_job_status, get_job]
    by_cases hh : hd.jobId = jid
    · rw [if_pos hh]
      by_cases h2 : hd.jobId = jid'
      · rw [if_pos ((applyUpdate_jobId hd a now).trans h2), if_pos h2]; rfl
      · rw [if_neg (fun c => h2 ((applyUpdate_jobId hd a now).symm.trans c)), if_neg h2, ih]
    · rw [if_neg hh]
      by_cases h2 : hd.jobId = jid'
      · rw [if_pos h2, if_pos h2]
      · rw [if_neg h2, if_neg h2, ih]

theorem update_job_status_length (jobs : List Job) (jid : String) (a : UpdateArgs)
    (now : Nat) : (update_job_status jobs jid a now).length = jobs.length := by
  induction jobs with
  | nil => rfl
  | cons hd tl ih => simp [update_job_status, ih]

/-- C1: when job creation succeeded but the queue publish raises, the
coordinator transitions the job to `failed` with an error recorded, does
not increment the day's usage counter (the ledger is unchanged), and
returns a 500 response whose body still carries the jobId. -/
theorem C1_publish_failure_rollback (env : SubmitEnv) (req : SubmitReq) (st : SubmitState)
    (e : String)
    (hval : validate_generation_request req.file_key req.prompt = none)
    (hs3 : env.s3FileExists = true)
    (hq : (can_generate_image env.dailyLimit (usageRead env st.usage req.user_id)).1 = true)
    (hpub : env.publishResult = .error e) :
    (handle_generate_image env req st).1.statusCode = 500 ∧
    (handle_generate_image env req st).1.jobId = some env.new_job_id ∧
    (get_job (handle_generate_image env req st).2.1.jobs env.new_job_id).map Job.status
      = some ("failed") ∧
    (get_job (handle_generate_image env req st).2.1.jobs env.new_job_id).map Job.error
      = some (some ("Failed to queue job: " ++ e)) ∧
    (handle_generate_image env req st).2.1.usage = st.usage ∧
    Effect.quotaIncrement ∉ (handle_generate_image env req st).2.2 := by
  by_cases hu : req.user_id ∈ st.users <;>
    simp [handle_generate_image, hval, hs3, hq, hpub, hu, update_job_status, get_job,
      create_job, applyUpdate]

/-- Witness for C1 at a concrete submission whose publish fails. -/
theorem C1_publish_failure_rollback_witness :
    (handle_generate_image envC1 reqOk stEmpty).1.statusCode = 500 ∧
    (handle_generate_image envC1 reqOk stEmpty).1.jobId = some ("job_1") ∧
    (handle_generate_image envC1 reqOk stEmpty).2.1.usage = [] :=
  ⟨(C1_publish_failure_rollback envC1 reqOk stEmpty ("boom") rfl rfl rfl rfl).1,
   (C1_publish_failure_rollback envC1 reqOk stEmpty ("boom") rfl rfl rfl rfl).2.1,
   (C1_publish_failure_rollback envC1 reqOk stEmpty ("boom") rfl rfl rfl rfl).2.2.2.2.1⟩

/-- C2: a valid submission with quota available whose publish succeeds
creates exactly one Job, increments the owner's day counter by exactly one,
transitions the Job to `queued` recording the queue message id in its
metadata, and returns 200 with the jobId, status `queued` and
remainingQuota equal to the daily limit minus the post-increment count. -/
theorem C2_successful_submit (env : SubmitEnv) (req : SubmitReq) (st : SubmitState)
    (msgId : String)
    (hval : validate_generation_request req.file_key req.prompt = none)
    (hs3 : env.s3FileExists = true)
    (hq : (can_generate_image env.dailyLimit (usageRead env st.usage req.user_id)).1 = true)
    (hpub : env.publishResult = .ok msgId) :
    (handle_generate_image env req st).1.statusCode = 200 ∧
    (handle_generate_image env req st).1.jobId = some env.new_job_id ∧
    (handle_generate_image env req st).1.status = some ("queued") ∧
    (handle_generate_image env req st).1.remainingQuota =
      some ((env.dailyLimit : Int)
        - (((lookupUsage st.usage (usageKey req.user_id env.today)).getD 0 + 1 : Nat) : Int)) ∧
    (handle_generate_image env req st).2.1.jobs.length = st.jobs.length + 1 ∧
    (get_job (handle_generate_image env req st).2.1.jobs env.new_job_id).map Job.status
      = some ("queued") ∧
    metaLookup ((get_job (handle_generate_image env req st).2.1.jobs env.new_job_id).bind
      Job.metadata) "sqsMessageId" = some (MetaVal.str msgId) ∧
    lookupUsage (handle_generate_image env req st).2.1.usage (usageKey req.user_id env.today)
      = some ((lookupUsage st.usage (usageKey req.user_id env.today)).getD 0 + 1) := by
  by_cases hu : req.user_id ∈ st.users <;>
    simp [handle_generate_image, hval, hs3, hq, hpub, hu, increment_usage,
      update_job_status, get_job, create_job, applyUpdate, update_job_status_length,
      lookupUsage_setUsage, metaLookup, List.find?]

/-- Witness for C2 at a concrete successful submission. -/
theorem C2_successful_submit_witness :
    (handle_generate_image envC2 reqOk stEmpty).1.statusCode = 200 ∧
    (handle_generate_image envC2 reqOk stEmpty).1.remainingQuota = some 9 ∧
    lookupUsage (handle_generate_image envC2 reqOk stEmpty).2.1.usage ("u#2026-01-01")
      = some 1 :=
  ⟨(C2_successful_submit envC2 reqOk stEmpty ("m1") rfl rfl rfl rfl).1,
   (C2_successful_submit envC2 reqOk stEmpty ("m1") rfl rfl rfl rfl).2.2.2.1,
   (C2_successful_submit envC2 reqOk stEmpty ("m1") rfl rfl rfl rfl).2.2.2.2.2.2.2⟩

/-- C3: when the day's usage count read back from the ledger is at least
the daily limit, the submission returns 429 with remainingQuota 0, creates
no job and performs no quota increment. -/
theorem C3_quota_exceeded (env : SubmitEnv) (req : SubmitReq) (st : SubmitState)
    (hval : validate_generation_request req.file_key req.prompt = none)
    (hs3 : env.s3FileExists = true)
    (hrd : env.usageReadFails = false)
    (hq : env.dailyLimit ≤ (lookupUsage st.usage (usageKey req.user_id env.today)).getD 0) :
    (handle_generate_image env req st).1.statusCode = 429 ∧
    (handle_generate_image env req st).1.remainingQuota = some 0 ∧
    (handle_generate_image env req st).1.error = some ("Daily quota exceeded") ∧
    (handle_generate_image env req st).2.1.jobs = st.jobs ∧
    (handle_generate_image env req st).2.1.usage = st.usage ∧
    Effect.quotaIncrement ∉ (handle_generate_image env req st).2.2 ∧
    (∀ jid : String, Effect.jobCreate jid ∉ (handle_generate_image env req st).2.2) := by
  have hcan : (can_generate_image env.dailyLimit (usageRead env st.usage req.user_id)).1
      = false := by
    cases hl : lookupUsage st.usage (usageKey req.user_id env.today) with
    | none =>
      rw [hl] at hq
      simp only [Option.getD_none, Option.getD_some] at hq
      simp [can_generate_image, usageRead, hrd, hl, get_today_usage]
      omega
    | some c =>
      rw [hl] at hq
      simp only [Option.getD_none, Option.getD_some] at hq
      simp [can_generate_image, usageRead, hrd, hl, get_today_usage]
      omega
  by_cases hu : req.user_id ∈ st.users <;>
    simp [handle_generate_image, hval, hs3, hcan, hu]

/-- Witness for C3 at a concrete owner already at the daily limit. -/
theorem C3_quota_exceeded_witness :
    (handle_generate_image envC2 reqOk stAtLimit).1.statusCode = 429 ∧
    (handle_generate_image envC2 reqOk stAtLimit).2.1.jobs = [] ∧
    (handle_generate_image envC2 reqOk stAtLimit).2.1.usage = [("u#2026-01-01", 10)] :=
  ⟨(C3_quota_exceeded envC2 reqOk stAtLimit rfl rfl rfl (by decide)).1,
   (C3_quota_exceeded envC2 reqOk stAtLimit rfl rfl rfl (by decide)).2.2.2.1,
   (C3_quota_exceeded envC2 reqOk stAtLimit rfl rfl rfl (by decide)).2.2.2.2.1⟩

/-- C9: a submission whose file key is missing (or empty) or whose prompt
is empty or longer than the maximum returns 400 with no side effects: the
state is unchanged and no collaborator call (in particular no quota read,
no quota increment and no job creation) is made. -/
theorem C9_validation_no_side_effects (env : SubmitEnv) (req : SubmitReq) (st : SubmitState)
    (h : req.file_key.getD ("") = "" ∨ req.prompt = "" ∨ req.prompt.length > 2000) :
    (handle_generate_image env req st).1.statusCode = 400 ∧
    (handle_generate_image env req st).2.1 = st ∧
    (handle_generate_image env req st).2.2 = [] := by
  have hsome : ∃ e, validate_generation_request req.file_key req.prompt = some e := by
    rcases h with h1 | h2 | h3
    · exact ⟨"fileKey is required", by simp [validate_generation_request, h1]⟩
    · by_cases h1 : req.file_key.getD ("") = ""
      · exact ⟨"fileKey is required", by simp [validate_generation_request, h1]⟩
      · exact ⟨"prompt is required", by simp [validate_generation_request, h1, h2]⟩
    · by_cases h1 : req.file_key.getD ("") = ""
      · exact ⟨"fileKey is required", by simp [validate_generation_request, h1]⟩
      · by_cases h2 : req.prompt = ""
        · exact ⟨"prompt is required", by simp [validate_generation_request, h1, h2]⟩
        · exact ⟨"prompt is too long (max 2000 characters)",
            by simp [validate_generation_request, h1, h2, h3]⟩
  obtain ⟨e, he⟩ := hsome
  simp [handle_generate_image, he]

/-- Witness for C9 at a concrete submission with an empty prompt. -/
theorem C9_validation_no_side_effects_witness :
    (handle_generate_image envC2
      { user_id := "u", file_key := some ("uploads/u/x.png"), prompt := "", style := "custom" }
      stEmpty).1.statusCode = 400 ∧
    (handle_generate_image envC2
      { user_id := "u", file_key := some ("uploads/u/x.png"), prompt := "", style := "custom" }
      stEmpty).2.2 = [] :=
  ⟨(C9_validation_no_side_effects envC2
      { user_id := "u", file_key := some ("uploads/u/x.png"), prompt := "", style := "custom" }
      stEmpty (Or.inr (Or.inl rfl))).1,
   (C9_validation_no_side_effects envC2
      { user_id := "u", file_key := some ("uploads/u/x.png"), prompt := "", style := "custom" }
      stEmpty (Or.inr (Or.inl rfl))).2.2⟩

/-- C10: the quota check fails open on ledger read errors: a raising read
makes `get_today_usage` return 0, so (with a positive daily limit) the
quota gate passes and no submission is answered with 429, regardless of
the owner's stored count for the day. -/
theorem C10_quota_fails_open (e : String) (limit : Nat) (env : SubmitEnv)
    (req : SubmitReq) (st : SubmitState) :
    get_today_usage (.error e) = 0 ∧
    (0 < limit → (can_generate_image limit (.error e)).1 = true) ∧
    (env.usageReadFails = true → 0 < env.dailyLimit →
      (handle_generate_image env req st).1.statusCode ≠ 429) := by
  refine ⟨rfl, ?_, ?_⟩
  · intro hl
    simp [can_generate_image, get_today_usage]
    omega
  · intro hrf hdl
    have hcan : (can_generate_image env.dailyLimit (usageRead env st.usage req.user_id)).1
        = true := by
      simp [can_generate_image, usageRead, hrf, get_today_usage]
      omega
    cases hv : validate_generation_request req.file_key req.prompt with
    | some err => simp [handle_generate_image, hv]
    | none =>
      by_cases hs3 : env.s3FileExists = true
      · by_cases hu : req.user_id ∈ st.users <;>
          cases hp : env.publishResult <;>
            simp [handle_generate_image, hv, hs3, hcan, hu, hp]
      · have hs3f : env.s3FileExists = false := by simpa using hs3
        simp [handle_generate_image, hv, hs3f]

/-- Witness for C10: with the ledger read raising and the stored count
already at the limit, the concrete submission is not answered with 429. -/
theorem C10_quota_fails_open_witness :
    get_today_usage (.error ("outage")) = 0 ∧
    (0 < 10 ∧ (can_generate_image 10 (.error ("outage"))).1 = true) ∧
    (handle_generate_image envC10 reqOk stAtLimit).1.statusCode ≠ 429 :=
  ⟨(C10_quota_fails_open ("outage") 10 envC10 reqOk stAtLimit).1,
   ⟨by decide, (C10_quota_fails_open ("outage") 10 envC10 reqOk stAtLimit).2.1 (by decide)⟩,
   (C10_quota_fails_open ("outage") 10 envC10 reqOk stAtLimit).2.2 rfl (by decide)⟩

/-- C4: refuted on the code — the worker performs no terminal-status check
before processing.  Re-delivering the message of the already `completed`
job re-executes it: with a succeeding environment a second object-store
write of the same key happens, and with a failing generation the job
leaves the terminal state `completed` and ends `failed`. -/
theorem C4_terminal_redelivery_not_noop :
    (process_record wenvOk (.parsed msgOk) wstCompleted).2.s3Writes
      = ["generated/u/job_1.png", "generated/u/job_1.png"] ∧
    (get_job (process_record wenvGenFail (.parsed msgOk) wstCompleted).2.jobs ("job_1")).map
      Job.status = some ("failed") := by
  constructor <;> rfl

theorem get_job_update_status (jobs : List Job) (jid : String) (a : UpdateArgs) (now : Nat)
    (h : (get_job jobs jid).isSome = true) :
    (get_job (update_job_status jobs jid a now) jid).map Job.status = some a.status := by
  cases hg : get_job jobs jid with
  | none => rw [hg] at h; simp at h
  | some j => rw [get_job_update_self jobs jid a now j hg]; simp [applyUpdate]

theorem try_process_error_presence (env : WorkerEnv) (m : SqsMessage) (st : WorkerState)
    (es : String × WorkerState) (jid : String)
    (h : try_process env m st = .error es) :
    (get_job es.2.jobs jid).isSome = (get_job st.jobs jid).isSome := by
  simp only [try_process] at h
  repeat' split at h
  all_goals first
    | exact Except.noConfusion h
    | (simp only [Except.error.injEq] at h
       subst h
       simp [addWarning, addWarnings, get_job_update_isSome])

/-- C5: the worker's batch handler never raises and always returns a 200
with a success/failure tally covering every record, and a failing record
whose message carries an identifiable jobId leaves that job marked
`failed`; processing of one record never prevents the others (the handler
is a total fold over the batch). -/
theorem C5_batch_isolation :
    (∀ (batch : List (WorkerEnv × SqsRecord)) (st : WorkerState),
      (lambda_handler batch st).1.statusCode = 200 ∧
      (lambda_handler batch st).1.processed + (lambda_handler batch st).1.failed
        = batch.length) ∧
    (∀ (env : WorkerEnv) (m : SqsMessage) (st : WorkerState),
      (process_record env (.parsed m) st).1 = false →
      truthy m.jobId = true →
      (get_job st.jobs (m.jobId.getD (""))).isSome = true →
      (get_job (process_record env (.parsed m) st).2.jobs (m.jobId.getD (""))).map Job.status
        = some ("failed")) := by
  constructor
  · intro batch st
    refine ⟨rfl, ?_⟩
    induction batch generalizing st with
    | nil => rfl
    | cons er rest ih =>
      have hr2 := ih (process_record er.1 er.2 st).2
      simp only [lambda_handler, process_batch] at hr2 ⊢
      cases hr : (process_record er.1 er.2 st).1 <;> simp [hr] <;> omega
  · intro env m st hf ht hp
    cases htp : try_process env m st with
    | ok st1 => simp [process_record, htp] at hf
    | error es =>
      have hpres := try_process_error_presence env m st es (m.jobId.getD ("")) htp
      rw [hp] at hpres
      simp only [process_record, htp, ht, if_true]
      split_ifs <;> exact get_job_update_status _ _ _ _ hpres

/-- Witness for C5: tally on a concrete three-record batch (one malformed
record, one message missing its prompt, one well-formed message), and the
failed-marking of the concrete prompt-less message. -/
theorem C5_batch_isolation_witness :
    (lambda_handler [(wenvOk, .malformed), (wenvOk, .parsed msgNoPrompt),
        (wenvOk, .parsed msgOk)] wstQueued).1.statusCode = 200 ∧
    (lambda_handler [(wenvOk, .malformed), (wenvOk, .parsed msgNoPrompt),
        (wenvOk, .parsed msgOk)] wstQueued).1.processed +
      (lambda_handler [(wenvOk, .malformed), (wenvOk, .parsed msgNoPrompt),
        (wenvOk, .parsed msgOk)] wstQueued).1.failed = 3 ∧
    (get_job (process_record wenvOk (.parsed msgNoPrompt) wstQueued).2.jobs ("job_1")).map
      Job.status = some ("failed") :=
  ⟨(C5_batch_isolation.1 [(wenvOk, .malformed), (wenvOk, .parsed msgNoPrompt),
      (wenvOk, .parsed msgOk)] wstQueued).1,
   (C5_batch_isolation.1 [(wenvOk, .malformed), (wenvOk, .parsed msgNoPrompt),
      (wenvOk, .parsed msgOk)] wstQueued).2,
   C5_batch_isolation.2 wenvOk msgNoPrompt wstQueued rfl rfl rfl⟩

/-- C6 counterexample: for a response with no output candidate the job does
end `failed`, but the recorded error is the no-candidates message, which
does not mention "no image" — refuting the claim that every such failure
carries an error mentioning "no image". -/
theorem C6_counterexample :
    (get_job (process_record wenvNoCand (.parsed msgOk) wstQueued).2.jobs ("job_1")).map
      Job.status = some ("failed") ∧
    (get_job (process_record wenvNoCand (.parsed msgOk) wstQueued).2.jobs ("job_1")).map
      Job.error = some (some ("Image generation failed: no candidates in response")) ∧
    containsSubstr ("Image generation failed: no candidates in response") "no image"
      = false := by
  refine ⟨rfl, rfl, rfl⟩

/-- C6 (amended): a response with no candidate or with a candidate carrying
no image payload ends the job `failed` with `outputImageUrl` unchanged and
no object-store write; the error mentions "no image" in the no-payload case
and "no candidates" (not "no image") in the no-candidate case; an
unexpected-but-non-empty completion reason alone only logs a warning and
the job still completes. -/
theorem C6_amended (env : WorkerEnv) (m : SqsMessage) (st : WorkerState) (j : Job)
    (bs : List Nat)
    (ht1 : truthy m.jobId = true) (ht2 : truthy m.userId = true)
    (ht3 : truthy m.s3_uri = true) (ht4 : truthy m.prompt = true)
    (hj : get_job st.jobs (m.jobId.getD ("")) = some j)
    (hs3 : env.s3GetResult = .ok bs) :
    (∀ resp, env.genResult = .ok resp → resp.candidates = [] →
      (get_job (process_record env (.parsed m) st).2.jobs (m.jobId.getD (""))).map Job.status
          = some ("failed") ∧
      (get_job (process_record env (.parsed m) st).2.jobs (m.jobId.getD (""))).map Job.error
          = some (some ("Image generation failed: no candidates in response")) ∧
      (get_job (process_record env (.parsed m) st).2.jobs (m.jobId.getD (""))).map
          Job.outputImageUrl = some j.outputImageUrl ∧
      (process_record env (.parsed m) st).2.s3Writes = st.s3Writes) ∧
    (∀ resp c rest, env.genResult = .ok resp → resp.candidates = c :: rest →
      (extract_image c.parts).2 = none →
      (get_job (process_record env (.parsed m) st).2.jobs (m.jobId.getD (""))).map Job.status
          = some ("failed") ∧
      (get_job (process_record env (.parsed m) st).2.jobs (m.jobId.getD (""))).map Job.error
          = some (some ("Image generation failed: no image data in response")) ∧
      (get_job (process_record env (.parsed m) st).2.jobs (m.jobId.getD (""))).map
          Job.outputImageUrl = some j.outputImageUrl ∧
      (process_record env (.parsed m) st).2.s3Writes = st.s3Writes) ∧
    containsSubstr ("Image generation failed: no image data in response") "no image" = true ∧
    containsSubstr ("Image generation failed: no candidates in response") "no image" = false ∧
    (∀ resp c rest fr bs2, env.genResult = .ok resp → resp.candidates = c :: rest →
      c.finish_reason = some fr → finishReasonUnexpected fr = true →
      (extract_image c.parts).2 = some bs2 → bs2.isEmpty = false →
      env.s3PutResult = .ok () →
      (get_job (process_record env (.parsed m) st).2.jobs (m.jobId.getD (""))).map Job.status
          = some ("completed") ∧
      "unexpected_finish_reason" ∈ (process_record env (.parsed m) st).2.warnings) := by
  have hreq : (truthy m.jobId && truthy m.userId && truthy m.s3_uri && truthy m.prompt)
      = true := by
    simp [ht1, ht2, ht3, ht4]
  refine ⟨?_, ?_, rfl, rfl, ?_⟩
  · intro resp hg hc
    by_cases hslow : env.generation_time > 30000 <;>
      by_cases hconn : (truthy m.connectionId && env.websocketEnabled) = true <;>
        by_cases hnot : env.notifyOk = true <;>
          simp [process_record, try_process, hreq, hs3, hg, hc, hslow, hconn, hnot, ht1, ht2, ht3, ht4,
            addWarning, addWarnings, get_job_update_self, hj, applyUpdate]
  · intro resp c rest hg hc hex
    cases hfr : c.finish_reason with
    | none =>
      by_cases hslow : env.generation_time > 30000 <;>
        by_cases hconn : (truthy m.connectionId && env.websocketEnabled) = true <;>
          by_cases hnot : env.notifyOk = true <;>
            simp [process_record, try_process, hreq, hs3, hg, hc, hfr, hex, hslow, hconn,
              hnot, ht1, ht2, ht3, ht4, addWarning, addWarnings, get_job_update_self, hj, applyUpdate]
    | some fr =>
      by_cases hun : finishReasonUnexpected fr = true <;>
        by_cases hslow : env.generation_time > 30000 <;>
          by_cases hconn : (truthy m.connectionId && env.websocketEnabled) = true <;>
            by_cases hnot : env.notifyOk = true <;>
              simp [process_record, try_process, hreq, hs3, hg, hc, hfr, hex, hun, hslow,
                hconn, hnot, ht1, ht2, ht3, ht4, addWarning, addWarnings, get_job_update_self, hj,
                applyUpdate]
  · intro resp c rest fr bs2 hg hc hfr hun hex hbs hput
    by_cases hslow : env.generation_time > 30000 <;>
      by_cases hconn : (truthy m.connectionId && env.websocketEnabled) = true <;>
        by_cases hnot : env.notifyOk = true <;>
          simp [process_record, try_process, hreq, hs3, hg, hc, hfr, hun, hex, hbs, hput,
            hslow, hconn, hnot, ht1, ht2, ht3, ht4, addWarning, addWarnings,
            get_job_update_self, hj, applyUpdate]

/-- Witness for C6 (amended) at a concrete text-only response: the job ends
`failed` with the "no image data" error and no object-store write. -/
theorem C6_amended_witness :
    (get_job (process_record wenvTextOnly (.parsed msgOk) wstQueued).2.jobs ("job_1")).map
      Job.status = some ("failed") ∧
    (get_job (process_record wenvTextOnly (.parsed msgOk) wstQueued).2.jobs ("job_1")).map
      Job.error = some (some ("Image generation failed: no image data in response")) ∧
    (process_record wenvTextOnly (.parsed msgOk) wstQueued).2.s3Writes = [] :=
  have h := C6_amended wenvTextOnly msgOk wstQueued queuedJob [1] rfl rfl rfl rfl rfl rfl
  have hb := h.2.1 textOnlyResp
    { finish_reason := some ("STOP"), parts := [{ text := some ("I cannot generate that image") }] }
    [] rfl rfl rfl
  ⟨hb.1, hb.2.1, hb.2.2.2⟩

/-- C7 counterexample: a Generation Service call that takes longer than 30
seconds is not treated as an error — the concrete slow job still completes
and only a slow-response warning is logged, refuting the claim that a
timeout expiry transitions the job to `failed`. -/
theorem C7_counterexample :
    (get_job (process_record wenvSlow (.parsed msgOk) wstQueued).2.jobs ("job_1")).map
      Job.status = some ("completed") ∧
    (process_record wenvSlow (.parsed msgOk) wstQueued).2.warnings
      = ["gemini_api_slow_response"] := by
  refine ⟨rfl, rfl⟩

/-- C7 (amended): the worker imposes no timeout on the Generation Service
call: a successful call that took longer than 30 seconds only logs a
slow-response warning and the job still completes, while an exception
raised by the call itself transitions the job to `failed` with the raised
message recorded. -/
theorem C7_amended (env : WorkerEnv) (m : SqsMessage) (st : WorkerState) (j : Job)
    (bs : List Nat)
    (ht1 : truthy m.jobId = true) (ht2 : truthy m.userId = true)
    (ht3 : truthy m.s3_uri = true) (ht4 : truthy m.prompt = true)
    (hj : get_job st.jobs (m.jobId.getD ("")) = some j)
    (hs3 : env.s3GetResult = .ok bs) :
    (∀ resp c rest bs2, env.genResult = .ok resp → resp.candidates = c :: rest →
      (extract_image c.parts).2 = some bs2 → bs2.isEmpty = false →
      env.s3PutResult = .ok () → env.generation_time > 30000 →
      (get_job (process_record env (.parsed m) st).2.jobs (m.jobId.getD (""))).map Job.status
          = some ("completed") ∧
      "gemini_api_slow_response" ∈ (process_record env (.parsed m) st).2.warnings) ∧
    (∀ e, env.genResult = .error e →
      (get_job (process_record env (.parsed m) st).2.jobs (m.jobId.getD (""))).map Job.status
          = some ("failed") ∧
      (get_job (process_record env (.parsed m) st).2.jobs (m.jobId.getD (""))).map Job.error
          = some (some e)) := by
  constructor
  · intro resp c rest bs2 hg hc hex hbs hput hslow
    cases hfr : c.finish_reason with
    | none =>
      by_cases hconn : (truthy m.connectionId && env.websocketEnabled) = true <;>
        by_cases hnot : env.notifyOk = true <;>
          simp [process_record, try_process, hs3, hg, hc, hfr, hex, hbs, hput, hslow,
            hconn, hnot, ht1, ht2, ht3, ht4, addWarning, addWarnings,
            get_job_update_self, hj, applyUpdate]
    | some fr =>
      by_cases hun : finishReasonUnexpected fr = true <;>
        by_cases hconn : (truthy m.connectionId && env.websocketEnabled) = true <;>
          by_cases hnot : env.notifyOk = true <;>
            simp [process_record, try_process, hs3, hg, hc, hfr, hun, hex, hbs, hput,
              hslow, hconn, hnot, ht1, ht2, ht3, ht4, addWarning, addWarnings,
              get_job_update_self, hj, applyUpdate]
  · intro e hg
    by_cases hconn : (truthy m.connectionId && env.websocketEnabled) = true <;>
      by_cases hnot : env.notifyOk = true <;>
        simp [process_record, try_process, hs3, hg, hconn, hnot, ht1, ht2, ht3, ht4,
          addWarning, addWarnings, get_job_update_self, hj, applyUpdate]

/-- Witness for C7 (amended): the concrete slow call completes with a
warning; the concrete raising call ends the job `failed`. -/
theorem C7_amended_witness :
    (get_job (process_record wenvSlow (.parsed msgOk) wstQueued).2.jobs ("job_1")).map
      Job.status = some ("completed") ∧
    "gemini_api_slow_response" ∈ (process_record wenvSlow (.parsed msgOk) wstQueued).2.warnings ∧
    (get_job (process_record wenvGenFail (.parsed msgOk) wstQueued).2.jobs ("job_1")).map
      Job.status = some ("failed") :=
  have h1 := C7_amended wenvSlow msgOk wstQueued queuedJob [1] rfl rfl rfl rfl rfl rfl
  have h2 := C7_amended wenvGenFail msgOk wstQueued queuedJob [1] rfl rfl rfl rfl rfl rfl
  have ha := h1.1 goodResp
    { finish_reason := some ("STOP"), parts := [{ inline_data := some [7] }] } [] [7]
    rfl rfl rfl rfl rfl (by decide)
  ⟨ha.1, ha.2, (h2.2 ("Gemini timeout") rfl).1⟩

/-- C8 counterexample: the `sqsMessageId` recorded in the job's metadata at
the queued transition is gone after the worker's completed transition —
the completed transition's metadata write replaces the map wholesale,
refuting the claim that the key is still present. -/
theorem C8_counterexample :
    metaLookup queuedJob.metadata ("sqsMessageId") = some (MetaVal.str ("m1")) ∧
    metaLookup ((get_job (process_record wenvOk (.parsed msgOk) wstQueued).2.jobs
      ("job_1")).bind Job.metadata) "sqsMessageId" = none := by
  refine ⟨rfl, rfl⟩

/-- C8 (amended): a transition that supplies metadata replaces the stored
metadata map wholesale while one that supplies none leaves it unchanged;
consequently after the worker's completed transition the job's metadata is
exactly the generation-time map and the `sqsMessageId` recorded at the
queued transition is no longer present. -/
theorem C8_amended :
    (∀ (j : Job) (a : UpdateArgs) (now : Nat) (mv : List (String × MetaVal)),
      a.metadata = some mv → (applyUpdate j a now).metadata = some mv) ∧
    (∀ (j : Job) (a : UpdateArgs) (now : Nat),
      a.metadata = none → (applyUpdate j a now).metadata = j.metadata) ∧
    (∀ (env : WorkerEnv) (m : SqsMessage) (st : WorkerState) (j : Job) (bs : List Nat)
      (resp : GenResponse) (c : Candidate) (rest : List Candidate) (bs2 : List Nat),
      truthy m.jobId = true → truthy m.userId = true →
      truthy m.s3_uri = true → truthy m.prompt = true →
      get_job st.jobs (m.jobId.getD ("")) = some j →
      env.s3GetResult = .ok bs →
      env.genResult = .ok resp → resp.candidates = c :: rest →
      (extract_image c.parts).2 = some bs2 → bs2.isEmpty = false →
      env.s3PutResult = .ok () →
      (get_job (process_record env (.parsed m) st).2.jobs (m.jobId.getD (""))).bind
          Job.metadata
        = some [("generationTime", MetaVal.num env.generation_time),
                ("modelName", MetaVal.str env.model_name),
                ("outputKey", MetaVal.str
                  ("generated/" ++ m.userId.getD ("") ++ "/" ++ m.jobId.getD ("") ++ ".png")),
                ("s3Uri", MetaVal.str
                  ("s3://" ++ env.result_bucket ++ "/" ++
                    ("generated/" ++ m.userId.getD ("") ++ "/" ++ m.jobId.getD ("") ++ ".png")))] ∧
      metaLookup ((get_job (process_record env (.parsed m) st).2.jobs (m.jobId.getD (""))).bind
        Job.metadata) "sqsMessageId" = none) := by
  refine ⟨?_, ?_, ?_⟩
  · intro j a now mv h
    simp [applyUpdate, h]
  · intro j a now h
    simp [applyUpdate, h]
  · intro env m st j bs resp c rest bs2 ht1 ht2 ht3 ht4 hj hs3 hg hc hex hbs hput
    cases hfr : c.finish_reason with
    | none =>
      by_cases hslow : env.generation_time > 30000 <;>
        by_cases hconn : (truthy m.connectionId && env.websocketEnabled) = true <;>
          by_cases hnot : env.notifyOk = true <;>
            simp [process_record, try_process, hs3, hg, hc, hfr, hex, hbs, hput, hslow,
              hconn, hnot, ht1, ht2, ht3, ht4, addWarning, addWarnings,
              get_job_update_self, hj, applyUpdate, metaLookup]
    | some fr =>
      by_cases hun : finishReasonUnexpected fr = true <;>
        by_cases hslow : env.generation_time > 30000 <;>
          by_cases hconn : (truthy m.connectionId && env.websocketEnabled) = true <;>
            by_cases hnot : env.notifyOk = true <;>
              simp [process_record, try_process, hs3, hg, hc, hfr, hun, hex, hbs, hput,
                hslow, hconn, hnot, ht1, ht2, ht3, ht4, addWarning, addWarnings,
                get_job_update_self, hj, applyUpdate, metaLookup]

/-- Witness for C8 (amended): the concrete completed job's metadata no
longer holds `sqsMessageId`, and a concrete metadata-bearing update
replaces the stored map. -/
theorem C8_amended_witness :
    metaLookup ((get_job (process_record wenvOk (.parsed msgOk) wstQueued).2.jobs
      ("job_1")).bind Job.metadata) "sqsMessageId" = none ∧
    (applyUpdate queuedJob { status := "x", metadata := some [("k", MetaVal.num 1)] }
      3).metadata = some [("k", MetaVal.num 1)] :=
  have h3 := C8_amended.2.2 wenvOk msgOk wstQueued queuedJob [1] goodResp
    { finish_reason := some ("STOP"), parts := [{ inline_data := some [7] }] } [] [7]
    rfl rfl rfl rfl rfl rfl rfl rfl rfl rfl rfl
  ⟨h3.2, C8_amended.1 queuedJob
    { status := "x", metadata := some [("k", MetaVal.num 1)] } 3 [("k", MetaVal.num 1)] rfl⟩
